import Mathlib

/-!
Shallow embedding of `plugins/PyQuickStart/QuickStartMain.py`.

The module defines a class `QuickStartMain` extending the host framework's
`AbstractMain`, with two methods (`initialize`, `getPluginName`), a
module-level entry point `main()` that constructs one instance and calls the
host-supplied `run(argc, argv)` method, and a `__main__` guard that invokes
`main()` as a bare statement.

Observable effects are modelled as an explicit event trace (`Event`):
object construction, the delegation to the host's `run` method, and lines
written to standard output.  The host's `run` method and the host state set
up by `AbstractMain.__init__` are outside the source and are kept abstract
(a function argument and a type parameter respectively).
-/

/-- Observable events of the module: construction of a `QuickStartMain`
instance, a call to the host's `run` method with the given argument count
and argument vector, and a line written to standard output. -/
inductive Event where
  | construct : Event
  | runCall (argc : Nat) (argv : List String) : Event
  | stdoutLine (s : String) : Event
deriving DecidableEq

/-- Tests whether an event is a construction event. -/
def Event.isConstruct : Event → Bool
  | .construct => true
  | _ => false

/-- Tests whether an event is a call to the host's `run` method. -/
def Event.isRunCall : Event → Bool
  | .runCall _ _ => true
  | _ => false

/-- Tests whether an event is a write to standard output. -/
def Event.isStdout : Event → Bool
  | .stdoutLine _ => true
  | _ => false

/-- Modelled from the spec: the result type owned by the host framework
(`rlpswrapper`, not under the given source).  Per the spec it has two
shapes: "a success marker (optionally carrying a message) or an error
marker (optionally carrying a message/code)". -/
inductive Result where
  | success (message : Option String) : Result
  | error (message : Option String) (code : Option Int) : Result
deriving DecidableEq

/-- Tests whether a result is a success result. -/
def Result.isSuccess : Result → Bool
  | .success _ => true
  | _ => false

/-- Tests whether a result is an error result. -/
def Result.isError : Result → Bool
  | .error _ _ => true
  | _ => false

/-- Modelled from the spec: the host's `Success` constructor with an
optional message payload.  The source applies it with no arguments
(`Success()`), which per the spec's "optionally carrying a message" leaves
the message payload absent; that application is embedded as
`Success none`. -/
def Success (message : Option String) : Result :=
  Result.success message

/-- Modelled from the spec: the host's `Error` constructor with optional
message and code payloads.  It is imported by the source but never
applied. -/
def Error (message : Option String) (code : Option Int) : Result :=
  Result.error message code

/-- The `QuickStartMain` class.  Its own `__init__` only delegates to
`AbstractMain.__init__`, whose effect on the object is host-owned; the
attributes the host base class may set are abstracted as a value of an
arbitrary type `σ`.  The class body itself declares no attributes. -/
structure QuickStartMain (σ : Type) where
  hostState : σ

/-- Embeds `QuickStartMain.initialize`: prints one line
(`print("Initializing Python Quickstart Plugin...")`) and returns
`Success()`.  The method body never assigns to `self`, so the object is
returned unchanged. -/
def QuickStartMain.initialize {σ : Type} (self : QuickStartMain σ) :
    List Event × Result × QuickStartMain σ :=
  ([Event.stdoutLine "Initializing Python Quickstart Plugin..."],
   Success none, self)

/-- Embeds `QuickStartMain.getPluginName`: returns the string literal
`"pyquickstart"`.  The body performs no writes and never assigns to
`self`, so the event trace is empty and the object is returned
unchanged. -/
def QuickStartMain.getPluginName {σ : Type} (self : QuickStartMain σ) :
    List Event × String × QuickStartMain σ :=
  ([], "pyquickstart", self)

/-- Embeds the module-level `main()`: constructs one `QuickStartMain`
instance (`mainObj = QuickStartMain()`; the host state it starts with is
the abstract `initState`) and returns
`mainObj.run(len(sys.argv), sys.argv)`.  The host's `run` method is
abstract; `main`'s own trace records the construction and the single
delegation with the original argument count and vector. -/
def PyQuickStart.main {σ : Type} (initState : σ)
    (run : QuickStartMain σ → Nat → List String → Int)
    (argv : List String) : List Event × Int :=
  let mainObj : QuickStartMain σ := ⟨initState⟩
  ([Event.construct, Event.runCall argv.length argv],
   run mainObj argv.length argv)

/-- Embeds loading the module with a given `__name__`: the guard
`if __name__ == "__main__": main()` runs `main()` only when the module is
executed as the main program; on a plain import nothing at module level
executes beyond the definitions, so the trace is empty. -/
def moduleMain {σ : Type} (initState : σ)
    (run : QuickStartMain σ → Nat → List String → Int)
    (name : String) (argv : List String) : List Event :=
  if name = "__main__" then (PyQuickStart.main initState run argv).1 else []

/-- Embeds the process result when the script is executed as the main
program and runs to completion: the guard invokes `main()` as a bare
statement, so the value `main()` returns is discarded, and the interpreter
exits with status 0. -/
def programResult {σ : Type} (initState : σ)
    (run : QuickStartMain σ → Nat → List String → Int)
    (argv : List String) : Int :=
  let _discarded := (PyQuickStart.main initState run argv).2
  0

/-- Applies `initialize` to an object `n` times in sequence, threading the
returned object through, and yields the final object. -/
def iterInit {σ : Type} (self : QuickStartMain σ) : Nat → QuickStartMain σ
  | 0 => self
  | n + 1 => ( QuickStartMain.initialize (iterInit self n)).2.2

/-- C1: for every call (any host state, any object), `getPluginName()`
returns exactly the string `"pyquickstart"`. -/
theorem C1_getPluginName_value {σ : Type} (self : QuickStartMain σ) :
    (self.getPluginName).2.1 = "pyquickstart" :=
  rfl

/-- C2: every call to `initialize()` returns a success result and never an
error result; no error path is taken. -/
theorem C2_init_always_success {σ : Type} (self : QuickStartMain σ) :
    (( self.initialize).2.1).isSuccess = true ∧
    (( self.initialize).2.1).isError = false :=
  ⟨rfl, rfl⟩

/-- C3: each call to `initialize()` writes exactly one line to standard
output, that line is exactly the literal
`Initializing Python Quickstart Plugin...` (so in particular contains it),
and no other output event is produced by the call. -/
theorem C3_init_output {σ : Type} (self : QuickStartMain σ) :
    ( self.initialize).1 =
      [Event.stdoutLine "Initializing Python Quickstart Plugin..."] ∧
    (( self.initialize).1.filter Event.isStdout).length = 1 ∧
    ( self.initialize).1.length = 1 :=
  ⟨rfl, rfl, rfl⟩

/-- C4: for every argument vector (and any host state and host `run`
method), the entry point's trace records exactly one construction of a
`QuickStartMain` instance and exactly one call to the host's `run` method,
and that call carries the original argument count `argv.length` and the
argument vector `argv` unmodified. -/
theorem C4_entry_point_delegation {σ : Type} (initState : σ)
    (run : QuickStartMain σ → Nat → List String → Int) (argv : List String) :
    (PyQuickStart.main initState run argv).1 =
      [Event.construct, Event.runCall argv.length argv] ∧
    ((PyQuickStart.main initState run argv).1.countP
      fun e => e.isConstruct) = 1 ∧
    ((PyQuickStart.main initState run argv).1.countP
      fun e => e.isRunCall) = 1 :=
  ⟨rfl, rfl, rfl⟩

/-- C5 (counterexample): the claim that the host `run` method's return
value is propagated as the program's result fails on the code.  With a
host `run` returning 3 and argument vector `["plugin"]`, `run` returns 3
at the delegated call, but executing the module as the main program yields
process result 0, because the guard `if __name__ == "__main__": main()`
discards the value of `main()`. -/
theorem C5_result_not_propagated :
    (fun (_ : QuickStartMain Unit) (_ : Nat) (_ : List String) => (3 : Int))
      ⟨()⟩ 1 ["plugin"] = 3 ∧
    programResult ()
      (fun (_ : QuickStartMain Unit) (_ : Nat) (_ : List String) => (3 : Int))
      ["plugin"] = 0 ∧
    (3 : Int) ≠ 0 := by
  refine ⟨rfl, rfl, ?_⟩
  decide

/-- C5 (amended): the function `main()` itself returns exactly what the
host's `run` method returns (applied to the constructed instance and the
original argument count and vector), but when the module is executed as
the main program the guard discards that value and the program's result is
0, regardless of what `run` returned. -/
theorem C5_main_return_and_program_result {σ : Type} (initState : σ)
    (run : QuickStartMain σ → Nat → List String → Int) (argv : List String) :
    (PyQuickStart.main initState run argv).2 =
      run ⟨initState⟩ argv.length argv ∧
    programResult initState run argv = 0 :=
  ⟨rfl, rfl⟩

/-- C6: the plugin identity string is non-empty and stable across calls:
after any number `n` or `m` of prior `initialize()` calls on the object,
`getPluginName()` returns one and the same string, and that string is not
empty. -/
theorem C6_identity_nonempty_stable {σ : Type} (self : QuickStartMain σ)
    (n m : Nat) :
    ((iterInit self n).getPluginName).2.1 =
      ((iterInit self m).getPluginName).2.1 ∧
    ((iterInit self n).getPluginName).2.1 ≠ "" := by
  refine ⟨rfl, ?_⟩
  show "pyquickstart" ≠ ""
  decide

/-- C7: `getPluginName()` takes no inputs beyond the object, produces no
events (no output, no other side effect), leaves the object unchanged, and
always returns its value (no error outcome exists in its type). -/
theorem C7_getPluginName_pure {σ : Type} (self : QuickStartMain σ) :
    self.getPluginName = (([] : List Event), "pyquickstart", self) :=
  rfl

/-- C8: the success result returned by every call to `initialize()`
carries no message payload: it is `Result.success none`, even though the
`Result` type's success shape optionally carries a message. -/
theorem C8_success_without_message {σ : Type} (self : QuickStartMain σ) :
    ( self.initialize).2.1 = Result.success none :=
  rfl

/-- C9: importing the module (any `__name__` other than `"__main__"`) has
no observable effect: the trace is empty, so no `QuickStartMain` instance
is constructed, the host's `run` method is not called, and nothing is
written to standard output. -/
theorem C9_import_no_effect {σ : Type} (initState : σ)
    (run : QuickStartMain σ → Nat → List String → Int)
    (name : String) (argv : List String) (h : name ≠ "__main__") :
    moduleMain initState run name argv = [] := by
  simp [moduleMain, h]

/-- C9 witness: importing the module under the name `"rlpswrapper_client"`
produces an empty trace. -/
theorem C9_import_no_effect_witness :
    moduleMain ()
      (fun (_ : QuickStartMain Unit) (_ : Nat) (_ : List String) => (0 : Int))
      "rlpswrapper_client" ["plugin"] = [] :=
  C9_import_no_effect ()
    (fun _ _ _ => (0 : Int)) "rlpswrapper_client" ["plugin"] (by decide)

/-- C10: `initialize()` leaves the object's state unchanged; its only
effects are the single standard-output write and the returned success
value. -/
theorem C10_init_frame {σ : Type} (self : QuickStartMain σ) :
    ( self.initialize).2.2 = self ∧
    ( self.initialize).1 =
      [Event.stdoutLine "Initializing Python Quickstart Plugin..."] ∧
    ( self.initialize).2.1 = Result.success none :=
  ⟨rfl, rfl, rfl⟩
